import Mathlib

/-
Verification of the task-routing core of the diagnostic-agent repository:
the semantic task scorer (semantic_task_scorer.py), the dispatch decision
engine with its circuit breaker (autonomic_dispatcher.py), and the
wake-on-LAN coordinator (autonomic_dispatcher.py / bridge_status_monitor.py).

Modelling conventions:
* Python floats are modelled as rationals (ℚ); all constants in the scorer
  and dispatcher are exactly representable, and every property proved here
  is a comparison/clamping property that holds under exact arithmetic.
* Wall-clock time is a rational passed in explicitly; a single dispatch call
  observes one time value `now`.
* The external world (reachability probes, the remote/local executors, the
  wake probe, I/O failures of the two log writers, the optional embedding
  backend's similarity values) is an explicit environment record, so the
  dispatcher is a pure function of (config, environment, bridge state, task).
* The recall log (recall_log.jsonl) is modelled as a list of structured
  events; an exception raised by a file write is modelled by a Boolean
  failure flag in the environment.
-/

namespace DiagnosticAgent

/-! ### semantic_task_scorer.py -/

/-- Contiguous-sublist test on character lists (Boolean, structurally
recursive so it evaluates in the kernel). -/
def listContains (needle : List Char) : List Char → Bool
  | [] => needle.isEmpty
  | c :: rest => needle.isPrefixOf (c :: rest) || listContains needle rest

/-- Python's `needle in haystack` substring test, on the underlying
character lists. -/
def pyStrIn (needle hay : String) : Bool := listContains needle.data hay.data

/-- Python's `str.lower()` as a character-wise map (structural, so it
evaluates in the kernel; agrees with `String.toLower`). -/
def pyLower (t : String) : String := ⟨t.data.map Char.toLower⟩

/-- Accumulator-passing worker for `pySplit`: splits a character list on
whitespace, discarding empty pieces. -/
def splitWsAux : List Char → List Char → List String
  | [], acc => if acc.isEmpty then [] else [⟨acc.reverse⟩]
  | c :: rest, acc =>
    if c.isWhitespace then
      (if acc.isEmpty then [] else [⟨acc.reverse⟩]) ++ splitWsAux rest []
    else splitWsAux rest (c :: acc)

/-- Python's `str.split()` with no argument: split on runs of whitespace,
discarding empty pieces. -/
def pySplit (t : String) : List String := splitWsAux t.data []

/-- Heavy-complexity keyword list from `SemanticTaskScorer.score`. -/
def heavy_keywords : List String :=
  ["optimize", "analyze", "summarize", "plan", "research",
   "implement", "generate", "build", "develop", "comprehensive",
   "detailed", "troubleshoot", "diagnostic", "configuration",
   "investigate", "performance", "security", "vulnerability",
   "orchestration", "deployment", "architecture", "system",
   "complex", "advanced", "sophisticated", "intricate", "thorough"]

/-- Complexity-indicator keyword list from `SemanticTaskScorer.score`. -/
def complexity_indicators : List String :=
  ["network", "docker", "container", "database", "server",
   "monitoring", "logging", "backup", "restore", "migration",
   "deployment", "scaling", "load", "performance", "memory",
   "cpu", "disk", "storage", "bandwidth", "latency", "infrastructure",
   "automation", "orchestration", "microservices", "kubernetes"]

/-- Container-routing keyword list from `SemanticTaskScorer.score`. -/
def container_routing_keywords : List String :=
  ["containers", "docker ps", "docker images", "docker logs",
   "docker exec", "docker inspect", "container status", "running containers",
   "container info", "container details", "docker system", "docker stats"]

/-- Light-keyword list from `SemanticTaskScorer.score`. -/
def light_keywords : List String :=
  ["list", "show", "echo", "simple", "test", "example", "help", "check", "status", "hello"]

/-- Python's `sum(1 for k in ks if k in t)`. -/
def countIn (ks : List String) (t : String) : ℕ :=
  (ks.filter (fun k => pyStrIn k t)).length

/-- The final `max(0.0, min(1.0, score))` clamp of `SemanticTaskScorer.score`. -/
def clamp01 (x : ℚ) : ℚ := max 0 (min 1 x)

/-- Embedding of `SemanticTaskScorer.score`.  `enabled` is the scorer's
config flag; `embed_ok` records whether the optional sentence-transformer
backend loaded; `heavy_sim`/`light_sim` are the cosine-similarity maxima the
backend would return for this text (unused when `embed_ok = false`; a runtime
failure inside the embedding block corresponds to similarity values below
every branch threshold). -/
def score (enabled embed_ok : Bool) (heavy_sim light_sim : ℚ) (text : String) : ℚ :=
  if !enabled || text.isEmpty then 0
  else
    let text_lower := pyLower text
    let length_norm : ℚ := min ((text.length : ℚ) / 80) 1
    let token_norm : ℚ := min (((pySplit text).length : ℚ) / 15) 1
    let s0 : ℚ := 0.25 * length_norm + 0.25 * token_norm
    let heavy_matches := countIn heavy_keywords text_lower
    let complexity_matches := countIn complexity_indicators text_lower
    let container_matches := countIn container_routing_keywords text_lower
    let light_matches := countIn light_keywords text_lower
    let s1 := if 0 < container_matches then s0 + min 0.6 (0.25 * (container_matches : ℚ)) else s0
    let s2 := if 0 < heavy_matches then s1 + min 0.4 (0.15 * (heavy_matches : ℚ)) else s1
    let s3 := if 0 < complexity_matches then s2 + min 0.3 (0.1 * (complexity_matches : ℚ)) else s2
    let s4 :=
      if 0 < light_matches && container_matches == 0 then
        s3 - min 0.4 (0.2 * (light_matches : ℚ))
      else s3
    let s5 :=
      if embed_ok then
        let a : ℚ :=
          if heavy_sim > 0.6 then 0.3
          else if heavy_sim > 0.4 then 0.2
          else if heavy_sim > 0.3 then 0.1
          else 0
        let b : ℚ :=
          if light_sim > 0.7 then 0.3
          else if light_sim > 0.5 then 0.2
          else 0
        s4 + a - b
      else s4
    clamp01 s5

/-! ### autonomic_dispatcher.py -/

/-- Routing reason strings produced by `dispatch_task`; the score-vs-threshold
message's two-decimal float formatting is abstracted away, the numbers it
interpolates being carried by the `dispatch_decision` event instead. -/
inductive Reason
  | scoreVsThreshold
  | forcedLocal
  | forcedRemote
  | temporarilyDisabled
deriving DecidableEq, Repr

/-- The module-level `BRIDGE_STATUS` dictionary. -/
structure BridgeStatus where
  connected : Bool
  last_ping_time : Option ℚ
  fallback_used : Bool
  failure_count : ℕ
  disabled_until : ℚ
deriving DecidableEq, Repr

/-- The module-level configuration derived from `static_config.json` and
`routing_config.json` (`REMOTE_ENABLED`, `WAKE_ON_LAN_ENABLED`, `DEV_MAC`,
and the scorer threshold `semantic_scorer.threshold`). -/
structure Config where
  remote_enabled : Bool
  wake_on_lan_enabled : Bool
  dev_mac : String
  threshold : ℚ
deriving DecidableEq, Repr

/-- Outcome of one `subprocess.run` ssh invocation in `run_remote`. -/
inductive RemoteResult
  | success (stdout : String)
  | exitFailure (stderr : String)
  | timeout
  | transportError (msg : String)
deriving DecidableEq, Repr

/-- True for the three failure outcomes of a remote execution attempt. -/
def RemoteResult.failed : RemoteResult → Bool
  | .success _ => false
  | _ => true

/-- Outcome of `smart_agent.process_query` in `run_local` (`failure` is a
raised exception, which `run_local` catches). -/
inductive LocalResult
  | success (out : String)
  | failure (err : String)
deriving DecidableEq, Repr

/-- The external world observed by one `dispatch_task` call: the clock, the
reachability probe result, the probe result after a wake attempt, the two
executors' outcomes, whether each of the two log writers' file writes would
raise, and the scorer's configuration/embedding environment. -/
structure Env where
  now : ℚ
  reachable : Bool
  wakeProbe : Bool
  remoteResult : RemoteResult
  localResult : LocalResult
  logEventFails : Bool
  scorerLogFails : Bool
  scorer_enabled : Bool
  embed_ok : Bool
  heavy_sim : ℚ
  light_sim : ℚ

/-- Score of a task text in a given environment (the dispatcher's
`score_task` proxy to `semantic_scorer.score`). -/
def scoreOf (env : Env) (t : String) : ℚ :=
  score env.scorer_enabled env.embed_ok env.heavy_sim env.light_sim t

/-- Entries appended to `agent_memory/recall_log.jsonl`, by `log_event` and
by `semantic_scorer.log_result` (both writers append to the same file). -/
inductive Event
  | dispatch_decision (score threshold : ℚ) (reason : Reason) (execute_remote : Bool)
  | scorer_log (task : String) (score : ℚ) (routed_to : String)
  | bridge_unreachable
  | bridge_auto_disabled (for_seconds : ℚ)
  | fallback_event
  | local_execution
  | local_execution_error
  | remote_execution
  | remote_execution_error
  | remote_execution_timeout
  | remote_dispatch_error
deriving DecidableEq, Repr

/-- Exceptions that can escape `dispatch_task`: the explicit `ValueError`
for conflicting force flags, and an I/O error raised by the unguarded file
write in `semantic_scorer.log_result`. -/
inductive DispatchError
  | bothForced
  | scorerLogWriteError
deriving DecidableEq, Repr

/-- Embedding of `log_event`: the write is wrapped in `try/except`, so a
failing write appends nothing (and raises nothing). -/
def log_event (failsWrite : Bool) (e : Event) : List Event :=
  if failsWrite then [] else [e]

/-- Embedding of `attempt_wake_and_retry`: returns the Python result paired
with whether a magic packet was sent.  With an empty `DEV_MAC` it returns
false immediately without sending; otherwise it sends, sleeps 45 seconds,
and probes reachability exactly once. -/
def attempt_wake_and_retry (cfg : Config) (env : Env) : Bool × Bool :=
  if cfg.dev_mac = "" then (false, false)
  else (env.wakeProbe, true)

/-- Embedding of `run_local`: produces the events it appends and the tagged
result string; an executor exception is caught and tagged `[LOCAL ERROR]`. -/
def run_local (env : Env) (task : String) : List Event × String :=
  match env.localResult with
  | .success out =>
      (log_event env.logEventFails .local_execution, "[LOCAL] " ++ out)
  | .failure err =>
      (log_event env.logEventFails .local_execution_error,
       "[LOCAL ERROR] Local execution failed: " ++ err)

/-- Embedding of `run_remote`: falls back to `run_local` when remote is
disabled or when the ssh invocation exits non-zero, times out, or raises. -/
def run_remote (cfg : Config) (env : Env) (task : String) : List Event × String :=
  if !cfg.remote_enabled then run_local env task
  else
    match env.remoteResult with
    | .success out =>
        (log_event env.logEventFails .remote_execution, "[REMOTE] " ++ out.trim)
    | .exitFailure _ =>
        let l := run_local env task
        (log_event env.logEventFails .remote_execution_error ++ l.1, l.2)
    | .timeout =>
        let l := run_local env task
        (log_event env.logEventFails .remote_execution_timeout ++ l.1, l.2)
    | .transportError _ =>
        let l := run_local env task
        (log_event env.logEventFails .remote_dispatch_error ++ l.1, l.2)

/-- The destination decision of `dispatch_task` (its lines 166–176):
`(execute_remote, reason)` as a function of the force flags, the score, the
threshold, `REMOTE_ENABLED`, and the circuit-breaker window. -/
def routing_decision (threshold : ℚ) (remote_enabled : Bool)
    (disabled_until now score' : ℚ) (force_local force_remote : Bool) : Bool × Reason :=
  if force_local then (false, .forcedLocal)
  else if force_remote then (true, .forcedRemote)
  else
    let er := decide (threshold ≤ score') && remote_enabled
    if now < disabled_until then (false, .temporarilyDisabled)
    else (er, .scoreVsThreshold)

/-- Embedding of `dispatch_task`.  Returns the bridge state after the call,
the list of log entries appended to `recall_log.jsonl`, and either the
returned result string or the exception that escaped. -/
def dispatch_task (cfg : Config) (env : Env) (st : BridgeStatus) (task : String)
    (force_local force_remote : Bool) :
    BridgeStatus × List Event × Except DispatchError String :=
  if force_local && force_remote then (st, [], .error .bothForced)
  else
    let s := scoreOf env task
    let dec := routing_decision cfg.threshold cfg.remote_enabled
      st.disabled_until env.now s force_local force_remote
    let log1 := log_event env.logEventFails (.dispatch_decision s cfg.threshold dec.2 dec.1)
    if env.scorerLogFails then
      -- `semantic_scorer.log_result` writes with no try/except: the
      -- exception propagates out of `dispatch_task`.
      (st, log1, .error .scorerLogWriteError)
    else
      let log2 := log1 ++ [.scorer_log task s (if dec.1 then "dev" else "local")]
      if dec.1 then
        if env.reachable then
          let st1 : BridgeStatus :=
            { st with connected := true, last_ping_time := some env.now,
                      fallback_used := false, failure_count := 0 }
          let r := run_remote cfg env task
          (st1, log2 ++ r.1, .ok r.2)
        else
          let st1 : BridgeStatus :=
            { st with connected := false, last_ping_time := some env.now,
                      fallback_used := true, failure_count := st.failure_count + 1 }
          let log3 := log2 ++ log_event env.logEventFails .bridge_unreachable
          if cfg.wake_on_lan_enabled && (attempt_wake_and_retry cfg env).1 then
            let st2 := { st1 with connected := true, fallback_used := false, failure_count := 0 }
            let r := run_remote cfg env task
            (st2, log3 ++ r.1, .ok r.2)
          else
            let st2 :=
              if 3 ≤ st1.failure_count then { st1 with disabled_until := env.now + 600 }
              else st1
            let log4 := log3 ++
              (if 3 ≤ st1.failure_count then
                log_event env.logEventFails (.bridge_auto_disabled 600) else [])
            let r := run_local env task
            (st2, log4 ++ log_event env.logEventFails .fallback_event ++ r.1, .ok r.2)
      else
        let r := run_local env task
        (st, log2 ++ r.1, .ok r.2)

/-! ### bridge_status_monitor.py (wake coordinator) -/

/-- Configuration used by `BridgeStatusMonitor.attempt_wake_and_connect`. -/
structure MonitorConfig where
  dev_machine_mac : String
  wake_retries : ℕ
deriving DecidableEq, Repr

/-- External world of one `attempt_wake_and_connect` call: the initial
reachability check, whether `send_wake_on_lan` reports success, and the
result of the reachability probe on each retry iteration. -/
structure MonitorEnv where
  initialReachable : Bool
  sendOk : Bool
  probe : ℕ → Bool

/-- The retry loop of `attempt_wake_and_connect`: up to `n` iterations,
each sleeping `retry_delay` and then probing; true on the first successful
probe, false when the iterations are exhausted. -/
def wake_probe_loop (probe : ℕ → Bool) : ℕ → ℕ → Bool
  | 0, _ => false
  | Nat.succ n, i => if probe i then true else wake_probe_loop probe n (i + 1)

/-- Embedding of `BridgeStatusMonitor.attempt_wake_and_connect`, paired with
whether `send_wake_on_lan` was invoked (a wake transmission was attempted).
Note the function performs no check that a hardware address is configured:
it sends (or attempts to send) a packet whenever the initial reachability
check fails, whatever `dev_machine_mac` holds. -/
def attempt_wake_and_connect (cfg : MonitorConfig) (env : MonitorEnv) : Bool × Bool :=
  if env.initialReachable then (true, false)
  else if !env.sendOk then (false, true)
  else (wake_probe_loop env.probe cfg.wake_retries 0, true)

/-! ### semantic_task_scorer.py (configuration persistence) -/

/-- In-memory scorer configuration (`self.enabled`, `self.threshold`). -/
structure ScorerState where
  enabled : Bool
  threshold : ℚ
deriving DecidableEq, Repr

/-- The `semantic_config.json` document as far as `_load_config` reads it:
the two keys it consults, each possibly absent (Python's
`data.update(existing)` only overrides keys present in the file). -/
structure StoredScorerConfig where
  enabled : Option Bool
  threshold : Option ℚ
deriving DecidableEq, Repr

/-- Embedding of `SemanticTaskScorer._save_config`: writes exactly the two
keys from the in-memory state. -/
def save_config (s : ScorerState) : StoredScorerConfig :=
  { enabled := some s.enabled, threshold := some s.threshold }

/-- Embedding of `SemanticTaskScorer._load_config`: defaults
`{enabled: true, threshold: 0.7}` updated by whatever the stored document
provides (`none` models a missing or unparseable file, which the code
swallows, keeping the defaults).  The trailing `_save_config()` call does
not affect the resulting in-memory state. -/
def load_config (file : Option StoredScorerConfig) : ScorerState :=
  match file with
  | none => { enabled := true, threshold := 0.7 }
  | some c => { enabled := c.enabled.getD true, threshold := c.threshold.getD 0.7 }

/-- Embedding of `SemanticTaskScorer.set_threshold`: updates the in-memory
state and immediately persists via `_save_config`; returns the new state and
the written document. -/
def set_threshold (s : ScorerState) (x : ℚ) : ScorerState × StoredScorerConfig :=
  let s' := { s with threshold := x }
  (s', save_config s')

/-! ### autonomic_dispatcher.py (get_dispatch_stats) -/

/-- Value found under the `"event_type"` key of a parsed log object, as far
as the two uses in `get_dispatch_stats` distinguish it.  The comparison
`entry.get("event_type") == "dispatch_decision"` never raises whatever the
value is; the membership test `"error" in entry.get("event_type", "")` is a
substring test for a string, a membership test for a list or dict (never
raising, true iff the test finds "error"), and raises `TypeError` for null,
a number, or a boolean. -/
inductive EventTypeVal
  | str (s : String)
  | nonIter
  | iter (hasErrorMember : Bool)
deriving DecidableEq, Repr

/-- Value found under the `"data"` key of a parsed log object: only a dict
supports the `.get("execute_remote")` attribute access (carrying the
truthiness of that key, falsy when absent); any other value — null included —
raises `AttributeError` there. -/
inductive DataVal
  | dict (execute_remote : Bool)
  | nonDict
deriving DecidableEq, Repr

/-- One line of `recall_log.jsonl` as `get_dispatch_stats` sees it:
`malformed` raises `json.JSONDecodeError` (caught and skipped); `nonObject`
parses as JSON but not as an object, so `entry.get` itself raises
`AttributeError` (NOT caught by the inner handler); `obj` carries the values
of the `event_type` and `data` keys, each `none` when the key is absent. -/
inductive LogLine
  | malformed
  | nonObject
  | obj (event_type : Option EventTypeVal) (data : Option DataVal)
deriving DecidableEq, Repr

/-- The counter dictionary built by `get_dispatch_stats` (`local_count`
models the Python key "local", a reserved word in Lean). -/
structure DispatchStats where
  total : ℕ
  local_count : ℕ
  remote : ℕ
  errors : ℕ
deriving DecidableEq, Repr

/-- One iteration of the `get_dispatch_stats` loop body.  In Python the
`total` increment precedes the `data` access, but an exception there
discards the counters anyway (the outer handler returns an error record),
so the erroring branches carry no counters. -/
def stats_step (s : DispatchStats) : LogLine → Except String DispatchStats
  | .malformed => .ok s
  | .nonObject => .error "AttributeError"
  | .obj et dat =>
      if et = some (.str "dispatch_decision") then
        match dat with
        | none =>
            -- entry.get("data", {}) is {}, whose .get gives None: falsy.
            .ok { s with total := s.total + 1, local_count := s.local_count + 1 }
        | some (.dict er) =>
            if er then .ok { s with total := s.total + 1, remote := s.remote + 1 }
            else .ok { s with total := s.total + 1, local_count := s.local_count + 1 }
        | some .nonDict => .error "AttributeError"
      else
        match et with
        | none => .ok s            -- default "" holds no "error"
        | some (.str t) =>
            if pyStrIn "error" t then .ok { s with errors := s.errors + 1 } else .ok s
        | some .nonIter => .error "TypeError"
        | some (.iter hasErr) =>
            if hasErr then .ok { s with errors := s.errors + 1 } else .ok s

/-- True when the stats loop body processes this line without raising: the
malformed and benign-object cases; false for a JSON non-object, for a
null/number/boolean `event_type` reaching the membership test, and for a
dispatch decision whose `data` is not a dict. -/
def LogLine.safe : LogLine → Bool
  | .malformed => true
  | .nonObject => false
  | .obj et dat =>
      if et = some (.str "dispatch_decision") then
        match dat with
        | some .nonDict => false
        | _ => true
      else
        match et with
        | some .nonIter => false
        | _ => true

/-- The `get_dispatch_stats` scan from a given accumulator; an uncaught
exception aborts the scan (the outer handler returns an error record in
place of the counters). -/
def stats_scan (acc : DispatchStats) : List LogLine → Except String DispatchStats
  | [] => .ok acc
  | l :: rest =>
      match stats_step acc l with
      | .ok acc' => stats_scan acc' rest
      | .error e => .error e

/-- Embedding of `get_dispatch_stats`: scan the whole log starting from
zeroed counters (a missing log file corresponds to the empty list). -/
def get_dispatch_stats (lines : List LogLine) : Except String DispatchStats :=
  stats_scan { total := 0, local_count := 0, remote := 0, errors := 0 } lines

/-! ### Observation helpers for the dispatch outcome log and result tags -/

/-- The two executors a dispatch can end on. -/
inductive Destination
  | localD
  | remoteD
deriving DecidableEq, Repr

/-- The executor-outcome events of the recall log (the records written by
`run_local` and by `run_remote`'s success branch); decision and
bridge-bookkeeping events carry no destination. -/
def execDest : Event → Option Destination
  | .local_execution => some .localD
  | .local_execution_error => some .localD
  | .remote_execution => some .remoteD
  | _ => none

/-- Destination reported by the last executor-outcome record of a log. -/
def lastExec (log : List Event) : Option Destination :=
  (log.filterMap execDest).getLast?

/-- Boolean string-prefix test on the underlying character lists. -/
def strHasPrefix (p s : String) : Bool := p.data.isPrefixOf s.data

/-- Executor tag carried by a dispatch result string (`[LOCAL] `,
`[LOCAL ERROR] `, or `[REMOTE] `). -/
def tagOf (s : String) : Option Destination :=
  if strHasPrefix "[LOCAL] " s || strHasPrefix "[LOCAL ERROR] " s then some .localD
  else if strHasPrefix "[REMOTE] " s then some .remoteD
  else none

/-- Executor tag of a dispatch outcome (none when an exception escaped). -/
def resultTag : Except DispatchError String → Option Destination
  | .ok s => tagOf s
  | .error _ => none

/-- True iff the dispatch returned a string rather than raising. -/
def isOkB : Except DispatchError String → Bool
  | .ok _ => true
  | .error _ => false

/-! ### Concrete sample values used by witnesses and counterexamples -/

/-- Baseline environment for concrete runs: clock at 0, peer unreachable,
both executors succeed, no I/O failures, scorer enabled, embedding backend
unavailable. -/
def defaultEnv : Env where
  now := 0
  reachable := false
  wakeProbe := false
  remoteResult := .success "ok"
  localResult := .success "ok"
  logEventFails := false
  scorerLogFails := false
  scorer_enabled := true
  embed_ok := false
  heavy_sim := 0
  light_sim := 0

/-- Baseline configuration: remote enabled, wake-on-LAN disabled, no MAC,
threshold 0. -/
def defaultCfg : Config where
  remote_enabled := true
  wake_on_lan_enabled := false
  dev_mac := ""
  threshold := 0

/-- Baseline bridge state: fresh process, circuit closed. -/
def defaultSt : BridgeStatus where
  connected := false
  last_ping_time := none
  fallback_used := false
  failure_count := 0
  disabled_until := 0

/-! ## Theorems -/

/-! ### Scorer lemmas (claim C5) -/

lemma clamp01_nonneg (x : ℚ) : 0 ≤ clamp01 x := le_max_left 0 _

lemma clamp01_le_one (x : ℚ) : clamp01 x ≤ 1 :=
  max_le (by norm_num) (min_le_left 1 x)

lemma score_empty (e ok : Bool) (hs ls : ℚ) : score e ok hs ls "" = 0 := by
  have h : "".isEmpty = true := rfl
  simp [score, h]

lemma score_range (e ok : Bool) (hs ls : ℚ) (t : String) :
    0 ≤ score e ok hs ls t ∧ score e ok hs ls t ≤ 1 := by
  simp only [score]
  split
  · norm_num
  · exact ⟨clamp01_nonneg _, clamp01_le_one _⟩

lemma score_ws : score true false 0 0 "   " = 3/320 := by
  have h1 : countIn heavy_keywords (pyLower "   ") = 0 := by decide
  have h2 : countIn complexity_indicators (pyLower "   ") = 0 := by decide
  have h3 : countIn container_routing_keywords (pyLower "   ") = 0 := by decide
  have h4 : countIn light_keywords (pyLower "   ") = 0 := by decide
  have h5 : pySplit "   " = [] := by decide
  have h6 : "   ".length = 3 := by decide
  have h7 : "   ".isEmpty = false := by decide
  simp only [score, h1, h2, h3, h4, h5, h6, h7, clamp01]
  norm_num

/-- Claim C5, counterexample: the scorer does NOT return 0.0 on the
whitespace-only input `"   "` — Python's `not text` guard only catches the
empty string, so the three spaces contribute a length signal of
0.25 * (3/80) = 3/320. -/
theorem C5_counterexample : score true false 0 0 "   " ≠ 0 := by
  rw [score_ws]; norm_num

/-- Claim C5, amended: the scorer returns exactly 0.0 for the empty string
(for any enabled/embedding configuration); a whitespace-only input such as
`"   "` instead yields the small positive length-based score 3/320; and for
every input the returned score lies in the closed interval [0, 1]. -/
theorem C5_scorer_amended (e ok : Bool) (hs ls : ℚ) :
    score e ok hs ls "" = 0 ∧
    score true false 0 0 "   " = 3/320 ∧
    ∀ t : String, 0 ≤ score e ok hs ls t ∧ score e ok hs ls t ≤ 1 :=
  ⟨score_empty e ok hs ls, score_ws, fun t => score_range e ok hs ls t⟩

/-! ### Claim C7: conflicting force flags fail fast -/

/-- Claim C7: calling dispatch with both `force_local` and `force_remote`
raises `ValueError` immediately: no scoring result is consumed, nothing is
appended to the log, and the bridge state is returned unchanged. -/
theorem C7_conflicting_force_flags (cfg : Config) (env : Env) (st : BridgeStatus)
    (t : String) :
    dispatch_task cfg env st t true true = (st, [], .error .bothForced) := rfl

/-! ### Claim C9: set-threshold / reload round trip -/

/-- Claim C9: `set_threshold x` followed by reloading the configuration from
the persisted document yields a threshold equal to `x` (floats modelled as
rationals; the JSON document is modelled as the key-value record the code
reads and writes). -/
theorem C9_threshold_roundtrip (s : ScorerState) (x : ℚ) :
    (load_config (some (set_threshold s x).2)).threshold = x := rfl

/-! ### Claim C10: dispatch statistics invariant -/

lemma stats_step_obj_ok (acc : DispatchStats) (et : Option EventTypeVal)
    (dat : Option DataVal)
    (hs : (LogLine.obj et dat).safe = true)
    (h : acc.total = acc.local_count + acc.remote) :
    ∃ acc', stats_step acc (.obj et dat) = .ok acc' ∧
      acc'.total = acc'.local_count + acc'.remote := by
  by_cases hd : et = some (EventTypeVal.str "dispatch_decision")
  · cases dat with
    | none =>
      refine ⟨{ acc with total := acc.total + 1, local_count := acc.local_count + 1 },
        ?_, ?_⟩
      · simp [stats_step, hd]
      · simp; omega
    | some d =>
      cases d with
      | dict er =>
        cases er with
        | true =>
          refine ⟨{ acc with total := acc.total + 1, remote := acc.remote + 1 }, ?_, ?_⟩
          · simp [stats_step, hd]
          · simp; omega
        | false =>
          refine ⟨{ acc with total := acc.total + 1, local_count := acc.local_count + 1 },
            ?_, ?_⟩
          · simp [stats_step, hd]
          · simp; omega
      | nonDict => simp [LogLine.safe, hd] at hs
  · cases et with
    | none => exact ⟨acc, by simp [stats_step], h⟩
    | some v =>
      cases v with
      | str t =>
        by_cases he : pyStrIn "error" t = true
        · exact ⟨{ acc with errors := acc.errors + 1 }, by simp [stats_step, hd, he],
            by simpa using h⟩
        · exact ⟨acc, by simp [stats_step, hd, he], h⟩
      | nonIter => simp [LogLine.safe, hd] at hs
      | iter hasErr =>
        cases hasErr with
        | true => exact ⟨{ acc with errors := acc.errors + 1 },
            by simp [stats_step, hd], by simpa using h⟩
        | false => exact ⟨acc, by simp [stats_step, hd], h⟩

lemma stats_scan_ok (lines : List LogLine) : ∀ (acc : DispatchStats),
    (∀ l ∈ lines, l.safe = true) →
    acc.total = acc.local_count + acc.remote →
    ∃ s, stats_scan acc lines = .ok s ∧ s.total = s.local_count + s.remote := by
  induction lines with
  | nil => exact fun acc _ h => ⟨acc, rfl, h⟩
  | cons l rest ih =>
    intro acc hsafe h
    have hl : l.safe = true := hsafe l (List.mem_cons_self l rest)
    have hrest : ∀ m ∈ rest, m.safe = true :=
      fun m hm => hsafe m (List.mem_cons_of_mem _ hm)
    cases l with
    | malformed => simpa [stats_scan, stats_step] using ih acc hrest h
    | nonObject => simp [LogLine.safe] at hl
    | obj et dat =>
      obtain ⟨acc', hstep, hinv⟩ := stats_step_obj_ok acc et dat hl h
      obtain ⟨s, hs, hsi⟩ := ih acc' hrest hinv
      refine ⟨s, ?_, hsi⟩
      simp only [stats_scan, hstep, hs]

/-- Claim C10, counterexample: three log contents on which
`get_dispatch_stats` aborts with an error record instead of returning
counters — a line of valid JSON that is not an object (`5`), an object whose
`event_type` is null (so `"error" in None` raises `TypeError`), and a
dispatch-decision object whose `data` is null (so `None.get` raises
`AttributeError`); none of these exceptions is caught by the inner
`except json.JSONDecodeError`. -/
theorem C10_counterexample :
    get_dispatch_stats [LogLine.nonObject] = .error "AttributeError" ∧
    get_dispatch_stats [LogLine.obj (some .nonIter) none] = .error "TypeError" ∧
    get_dispatch_stats [LogLine.obj (some (.str "dispatch_decision")) (some .nonDict)]
      = .error "AttributeError" :=
  ⟨rfl, rfl, rfl⟩

/-- Claim C10, amended: for every log whose lines the loop body can process
without raising — each line is non-JSON (skipped, contributing to no
counter), or a JSON object whose `event_type` is absent, a string, or a
list/dict, with `data` absent or a dict when the line is a dispatch
decision — `get_dispatch_stats` returns counters (naturals, hence
non-negative) satisfying total = local + remote.  A line parsing to a JSON
non-object, a null/number/boolean `event_type` reaching the membership
test, or a dispatch decision whose `data` is not a dict instead aborts the
scan with an error record. -/
theorem C10_stats_amended (lines rest : List LogLine)
    (hsafe : ∀ l ∈ lines, l.safe = true) :
    (∃ s, get_dispatch_stats lines = .ok s ∧ s.total = s.local_count + s.remote) ∧
    get_dispatch_stats (LogLine.malformed :: rest) = get_dispatch_stats rest :=
  ⟨stats_scan_ok lines _ hsafe rfl, rfl⟩

/-- Claim C10, witness: the amended theorem evaluated on a concrete log with
a remote dispatch decision, a malformed line, a decision without data, an
object without event type, and an error event. -/
theorem C10_witness :
    (∃ s, get_dispatch_stats
        [LogLine.obj (some (.str "dispatch_decision")) (some (.dict true)),
         LogLine.malformed,
         LogLine.obj (some (.str "dispatch_decision")) none,
         LogLine.obj none none,
         LogLine.obj (some (.str "remote_execution_error")) none] = .ok s ∧
        s.total = s.local_count + s.remote) ∧
    get_dispatch_stats (LogLine.malformed ::
        [LogLine.obj (some (.str "remote_execution_error")) none])
      = get_dispatch_stats [LogLine.obj (some (.str "remote_execution_error")) none] :=
  C10_stats_amended _ _ (by decide)

/-! ### Claim C6: wake coordinator -/

lemma wake_probe_loop_iff (p : ℕ → Bool) :
    ∀ (n i : ℕ), wake_probe_loop p n i = true ↔ ∃ j, j < n ∧ p (i + j) = true := by
  intro n
  induction n with
  | zero => intro i; simp [wake_probe_loop]
  | succ n ih =>
    intro i
    rw [wake_probe_loop]
    by_cases hp : p i = true
    · simp only [hp, if_true, true_iff]
      exact ⟨0, Nat.succ_pos n, by simpa using hp⟩
    · have hp' : p i = false := by simpa using hp
      rw [if_neg (by simp [hp']), ih (i + 1)]
      constructor
      · rintro ⟨j, hj, hpj⟩
        refine ⟨j + 1, by omega, ?_⟩
        have he : i + (j + 1) = i + 1 + j := by omega
        rw [he]; exact hpj
      · rintro ⟨j, hj, hpj⟩
        cases j with
        | zero => exact absurd (by simpa using hpj) hp
        | succ j =>
          refine ⟨j, by omega, ?_⟩
          have he : i + 1 + j = i + (j + 1) := by omega
          rw [he]; exact hpj

/-- Claim C6, counterexample: with NO hardware address configured
(`dev_machine_mac = ""`), the monitor's wake-and-connect still invokes the
wake transmission (second component true) and can even return true, instead
of returning false immediately without sending anything. -/
theorem C6_counterexample :
    attempt_wake_and_connect ⟨"", 3⟩ ⟨false, true, fun _ => true⟩ = (true, true) := rfl

/-- Claim C6, amended: when the peer is not initially reachable and the
wake transmission succeeds, the monitor's wake-and-connect always attempts a
wake transmission — regardless of whether a MAC is configured — and returns
true iff some probe among the `wake_retries` retry iterations succeeds
(first success wins, false once exhausted).  The MAC guard and the single
45-second grace sleep live in the dispatcher's `attempt_wake_and_retry`
instead, which probes exactly once rather than `max_retries` times. -/
theorem C6_wake_amended (mcfg : MonitorConfig) (menv : MonitorEnv)
    (dcfg : Config) (denv : Env)
    (h1 : menv.initialReachable = false) (h2 : menv.sendOk = true) :
    (attempt_wake_and_connect mcfg menv).2 = true ∧
    ((attempt_wake_and_connect mcfg menv).1 = true ↔
      ∃ j, j < mcfg.wake_retries ∧ menv.probe j = true) ∧
    (dcfg.dev_mac = "" → attempt_wake_and_retry dcfg denv = (false, false)) ∧
    (dcfg.dev_mac ≠ "" → attempt_wake_and_retry dcfg denv = (denv.wakeProbe, true)) := by
  refine ⟨?_, ?_, ?_, ?_⟩
  · simp [attempt_wake_and_connect, h1, h2]
  · simp only [attempt_wake_and_connect, h1, h2, Bool.not_true, Bool.false_eq_true,
      if_false]
    rw [wake_probe_loop_iff]
    simp
  · intro h; simp [attempt_wake_and_retry, h]
  · intro h; simp [attempt_wake_and_retry, h]

/-- Claim C6, witness: the amended theorem evaluated with two retries whose
second probe succeeds, against the default dispatcher configuration. -/
theorem C6_witness :
    (attempt_wake_and_connect ⟨"aa", 2⟩ ⟨false, true, fun j => j == 1⟩).2 = true ∧
    ((attempt_wake_and_connect ⟨"aa", 2⟩ ⟨false, true, fun j => j == 1⟩).1 = true ↔
      ∃ j, j < 2 ∧ (j == 1) = true) ∧
    (defaultCfg.dev_mac = "" →
      attempt_wake_and_retry defaultCfg defaultEnv = (false, false)) ∧
    (defaultCfg.dev_mac ≠ "" →
      attempt_wake_and_retry defaultCfg defaultEnv = (defaultEnv.wakeProbe, true)) :=
  C6_wake_amended ⟨"aa", 2⟩ ⟨false, true, fun j => j == 1⟩ defaultCfg defaultEnv rfl rfl

/-! ### Claim C1: threshold gating -/

lemma routing_decision_closed (th : ℚ) (re : Bool) (du now s : ℚ) (h : du ≤ now) :
    routing_decision th re du now s false false =
      (decide (th ≤ s) && re, Reason.scoreVsThreshold) := by
  simp [routing_decision, not_lt.mpr h]

lemma routing_decision_open (th : ℚ) (re : Bool) (du now s : ℚ) (h : now < du) :
    routing_decision th re du now s false false = (false, Reason.temporarilyDisabled) := by
  simp [routing_decision, h]

lemma dispatch_log_head (cfg : Config) (env : Env) (st : BridgeStatus) (t : String)
    (fl fr : Bool) (hff : (fl && fr) = false) (hlog : env.logEventFails = false) :
    (dispatch_task cfg env st t fl fr).2.1.head? =
      some (Event.dispatch_decision (scoreOf env t) cfg.threshold
        (routing_decision cfg.threshold cfg.remote_enabled st.disabled_until env.now
          (scoreOf env t) fl fr).2
        (routing_decision cfg.threshold cfg.remote_enabled st.disabled_until env.now
          (scoreOf env t) fl fr).1) := by
  simp only [dispatch_task, hff, Bool.false_eq_true, if_false, hlog, log_event]
  repeat' split
  all_goals simp

/-- Claim C1: with no force flags, remote enabled, and the circuit breaker
closed (`disabled_until ≤ now`), the destination decision is remote if and
only if score ≥ threshold, and the decision event logged by the dispatch
records exactly that comparison as its reason. -/
theorem C1_threshold_gating (cfg : Config) (env : Env) (st : BridgeStatus) (t : String)
    (hre : cfg.remote_enabled = true) (hcb : st.disabled_until ≤ env.now)
    (hlog : env.logEventFails = false) :
    (routing_decision cfg.threshold cfg.remote_enabled st.disabled_until env.now
        (scoreOf env t) false false).1 = decide (cfg.threshold ≤ scoreOf env t) ∧
    (dispatch_task cfg env st t false false).2.1.head? =
      some (Event.dispatch_decision (scoreOf env t) cfg.threshold Reason.scoreVsThreshold
        (decide (cfg.threshold ≤ scoreOf env t))) := by
  have hd := routing_decision_closed cfg.threshold cfg.remote_enabled st.disabled_until
    env.now (scoreOf env t) hcb
  rw [hre, Bool.and_true] at hd
  constructor
  · rw [hre, hd]
  · rw [dispatch_log_head cfg env st t false false rfl hlog, hre, hd]

/-- Claim C1, witness: the gating theorem evaluated at the default
configuration (threshold 0) on the empty task, which scores 0 and therefore
routes remote. -/
theorem C1_witness :
    (routing_decision defaultCfg.threshold defaultCfg.remote_enabled defaultSt.disabled_until
        defaultEnv.now (scoreOf defaultEnv "") false false).1 =
      decide (defaultCfg.threshold ≤ scoreOf defaultEnv "") ∧
    (dispatch_task defaultCfg defaultEnv defaultSt "" false false).2.1.head? =
      some (Event.dispatch_decision (scoreOf defaultEnv "") defaultCfg.threshold
        Reason.scoreVsThreshold (decide (defaultCfg.threshold ≤ scoreOf defaultEnv ""))) :=
  C1_threshold_gating defaultCfg defaultEnv defaultSt "" rfl (by decide) rfl

/-! ### Claim C2: circuit breaker trips after 3 consecutive failures -/

lemma dispatch_fail_step (cfg : Config) (env : Env) (st : BridgeStatus) (t : String)
    (hre : cfg.remote_enabled = true)
    (hth : decide (cfg.threshold ≤ scoreOf env t) = true)
    (hcb : st.disabled_until ≤ env.now)
    (hr : env.reachable = false)
    (hw : (cfg.wake_on_lan_enabled && (attempt_wake_and_retry cfg env).1) = false)
    (hsl : env.scorerLogFails = false) :
    (dispatch_task cfg env st t false false).1 =
      if 3 ≤ st.failure_count + 1 then
        { st with connected := false, last_ping_time := some env.now,
                  fallback_used := true, failure_count := st.failure_count + 1,
                  disabled_until := env.now + 600 }
      else
        { st with connected := false, last_ping_time := some env.now,
                  fallback_used := true, failure_count := st.failure_count + 1 } := by
  have hd := routing_decision_closed cfg.threshold cfg.remote_enabled st.disabled_until
    env.now (scoreOf env t) hcb
  rw [hre, Bool.and_true] at hd
  simp only [dispatch_task, Bool.false_and, Bool.false_eq_true, if_false, hre, hd, hth,
    hsl, hr, hw, if_true, log_event]

lemma dispatch_disabled_local (cfg : Config) (env : Env) (st : BridgeStatus) (t : String)
    (hcb : env.now < st.disabled_until) (hsl : env.scorerLogFails = false)
    (hlog : env.logEventFails = false) :
    (dispatch_task cfg env st t false false).1 = st ∧
    (dispatch_task cfg env st t false false).2.2 = .ok (run_local env t).2 ∧
    (dispatch_task cfg env st t false false).2.1.head? =
      some (Event.dispatch_decision (scoreOf env t) cfg.threshold
        Reason.temporarilyDisabled false) := by
  have hd := routing_decision_open cfg.threshold cfg.remote_enabled st.disabled_until
    env.now (scoreOf env t) hcb
  refine ⟨?_, ?_, ?_⟩ <;>
    simp [dispatch_task, hd, hsl, hlog, log_event]

/-- Claim C2: starting from zero recorded failures, three consecutive
remote-routed dispatches that find the peer unreachable (and cannot wake it)
drive the failure counter to 3 and set `disabled_until` to the third call's
time plus 600 seconds; and while `now < disabled_until`, a non-forced
dispatch with any score runs the local executor and logs its decision with
the reason "remote delegation temporarily disabled" and destination local. -/
theorem C2_circuit_breaker (cfg : Config) (st : BridgeStatus) (e1 e2 e3 e4 : Env)
    (t1 t2 t3 t4 : String)
    (hfc : st.failure_count = 0) (hre : cfg.remote_enabled = true)
    (hth1 : decide (cfg.threshold ≤ scoreOf e1 t1) = true)
    (hth2 : decide (cfg.threshold ≤ scoreOf e2 t2) = true)
    (hth3 : decide (cfg.threshold ≤ scoreOf e3 t3) = true)
    (hcb : st.disabled_until ≤ e1.now)
    (h12 : e1.now ≤ e2.now) (h23 : e2.now ≤ e3.now)
    (hr1 : e1.reachable = false) (hr2 : e2.reachable = false) (hr3 : e3.reachable = false)
    (hw1 : (cfg.wake_on_lan_enabled && (attempt_wake_and_retry cfg e1).1) = false)
    (hw2 : (cfg.wake_on_lan_enabled && (attempt_wake_and_retry cfg e2).1) = false)
    (hw3 : (cfg.wake_on_lan_enabled && (attempt_wake_and_retry cfg e3).1) = false)
    (hs1 : e1.scorerLogFails = false) (hs2 : e2.scorerLogFails = false)
    (hs3 : e3.scorerLogFails = false)
    (hs4 : e4.scorerLogFails = false) (hl4 : e4.logEventFails = false)
    (hwin : e4.now < e3.now + 600) :
    (dispatch_task cfg e3 (dispatch_task cfg e2 (dispatch_task cfg e1 st t1 false false).1
        t2 false false).1 t3 false false).1.disabled_until = e3.now + 600 ∧
    (dispatch_task cfg e3 (dispatch_task cfg e2 (dispatch_task cfg e1 st t1 false false).1
        t2 false false).1 t3 false false).1.failure_count = 3 ∧
    (dispatch_task cfg e4 (dispatch_task cfg e3 (dispatch_task cfg e2
        (dispatch_task cfg e1 st t1 false false).1 t2 false false).1 t3 false false).1
        t4 false false).2.2 = .ok (run_local e4 t4).2 ∧
    (dispatch_task cfg e4 (dispatch_task cfg e3 (dispatch_task cfg e2
        (dispatch_task cfg e1 st t1 false false).1 t2 false false).1 t3 false false).1
        t4 false false).2.1.head? =
      some (Event.dispatch_decision (scoreOf e4 t4) cfg.threshold
        Reason.temporarilyDisabled false) := by
  have s1 := dispatch_fail_step cfg e1 st t1 hre hth1 hcb hr1 hw1 hs1
  rw [hfc] at s1
  norm_num at s1
  have hdu1 : (dispatch_task cfg e1 st t1 false false).1.disabled_until
      = st.disabled_until := by
    rw [s1]
  have hfc1 : (dispatch_task cfg e1 st t1 false false).1.failure_count = 1 := by
    rw [s1]
  have s2 := dispatch_fail_step cfg e2 (dispatch_task cfg e1 st t1 false false).1 t2
    hre hth2 (by rw [hdu1]; exact hcb.trans h12) hr2 hw2 hs2
  rw [hfc1] at s2
  norm_num at s2
  have hdu2 : (dispatch_task cfg e2 (dispatch_task cfg e1 st t1 false false).1
      t2 false false).1.disabled_until = st.disabled_until := by
    rw [s2, hdu1]
  have hfc2 : (dispatch_task cfg e2 (dispatch_task cfg e1 st t1 false false).1
      t2 false false).1.failure_count = 2 := by
    rw [s2]
  have s3 := dispatch_fail_step cfg e3 (dispatch_task cfg e2
    (dispatch_task cfg e1 st t1 false false).1 t2 false false).1 t3
    hre hth3 (by rw [hdu2]; exact hcb.trans (h12.trans h23)) hr3 hw3 hs3
  rw [hfc2] at s3
  norm_num at s3
  have hdu3 : (dispatch_task cfg e3 (dispatch_task cfg e2
      (dispatch_task cfg e1 st t1 false false).1 t2 false false).1
      t3 false false).1.disabled_until = e3.now + 600 := by
    rw [s3]
  have hfc3 : (dispatch_task cfg e3 (dispatch_task cfg e2
      (dispatch_task cfg e1 st t1 false false).1 t2 false false).1
      t3 false false).1.failure_count = 3 := by
    rw [s3]
  have hopen := dispatch_disabled_local cfg e4 (dispatch_task cfg e3 (dispatch_task cfg e2
    (dispatch_task cfg e1 st t1 false false).1 t2 false false).1 t3 false false).1 t4
    (by rw [hdu3]; exact hwin) hs4 hl4
  exact ⟨hdu3, hfc3, hopen.2.1, hopen.2.2⟩

/-- Claim C2, witness: the circuit-breaker theorem evaluated at the default
configuration with three unreachable dispatches of the empty task at time 0,
followed by a fourth dispatch inside the cooldown window. -/
theorem C2_witness :
    (dispatch_task defaultCfg defaultEnv (dispatch_task defaultCfg defaultEnv
        (dispatch_task defaultCfg defaultEnv defaultSt "" false false).1
        "" false false).1 "" false false).1.disabled_until = defaultEnv.now + 600 ∧
    (dispatch_task defaultCfg defaultEnv (dispatch_task defaultCfg defaultEnv
        (dispatch_task defaultCfg defaultEnv defaultSt "" false false).1
        "" false false).1 "" false false).1.failure_count = 3 ∧
    (dispatch_task defaultCfg defaultEnv (dispatch_task defaultCfg defaultEnv
        (dispatch_task defaultCfg defaultEnv (dispatch_task defaultCfg defaultEnv defaultSt
        "" false false).1 "" false false).1 "" false false).1
        "" false false).2.2 = .ok (run_local defaultEnv "").2 ∧
    (dispatch_task defaultCfg defaultEnv (dispatch_task defaultCfg defaultEnv
        (dispatch_task defaultCfg defaultEnv (dispatch_task defaultCfg defaultEnv defaultSt
        "" false false).1 "" false false).1 "" false false).1
        "" false false).2.1.head? =
      some (Event.dispatch_decision (scoreOf defaultEnv "") defaultCfg.threshold
        Reason.temporarilyDisabled false) :=
  C2_circuit_breaker defaultCfg defaultSt defaultEnv defaultEnv defaultEnv defaultEnv
    "" "" "" "" rfl rfl (by decide) (by decide) (by decide) (by decide) (by decide)
    (by decide) rfl rfl rfl rfl rfl rfl rfl rfl rfl rfl rfl (by simp)

/-! ### Claim C3: remote execution failure after a successful probe -/

/-- Claim C3, counterexample: with the peer probed reachable and the remote
execution failing (non-zero exit), a dispatch that started with
`failure_count = 2` ends with `failure_count = 0` — the probe's success reset
the counter and the execution failure did NOT record a circuit-breaker
failure (the claimed increment would have left it at 3). -/
theorem C3_counterexample :
    (dispatch_task defaultCfg
        { defaultEnv with reachable := true, remoteResult := .exitFailure "boom" }
        { defaultSt with failure_count := 2 } "" false false).1.failure_count = 0 ∧
    (dispatch_task defaultCfg
        { defaultEnv with reachable := true, remoteResult := .exitFailure "boom" }
        { defaultSt with failure_count := 2 } "" false false).2.2 = .ok "[LOCAL] ok" :=
  ⟨rfl, rfl⟩

/-- Claim C3, amended: when a remote execution attempt fails (non-zero exit,
timeout, or transport error) after the peer was probed reachable, dispatch
falls back to local execution and never propagates an exception — but it
does not increment `consecutive_failures`: the successful probe has already
reset the counter to 0 and the execution failure leaves it there. -/
theorem C3_no_failure_recorded (cfg : Config) (env : Env) (st : BridgeStatus) (t : String)
    (hre : cfg.remote_enabled = true)
    (hth : decide (cfg.threshold ≤ scoreOf env t) = true)
    (hcb : st.disabled_until ≤ env.now)
    (hr : env.reachable = true)
    (hfail : env.remoteResult.failed = true)
    (hsl : env.scorerLogFails = false) :
    (dispatch_task cfg env st t false false).1.failure_count = 0 ∧
    (dispatch_task cfg env st t false false).2.2 = .ok (run_local env t).2 := by
  have hd := routing_decision_closed cfg.threshold cfg.remote_enabled st.disabled_until
    env.now (scoreOf env t) hcb
  rw [hre, Bool.and_true] at hd
  cases hrem : env.remoteResult with
  | success out => rw [hrem] at hfail; simp [RemoteResult.failed] at hfail
  | exitFailure err =>
    refine ⟨?_, ?_⟩ <;>
      simp [dispatch_task, hre, hd, hth, hsl, hr, log_event, run_remote, hrem]
  | timeout =>
    refine ⟨?_, ?_⟩ <;>
      simp [dispatch_task, hre, hd, hth, hsl, hr, log_event, run_remote, hrem]
  | transportError msg =>
    refine ⟨?_, ?_⟩ <;>
      simp [dispatch_task, hre, hd, hth, hsl, hr, log_event, run_remote, hrem]

/-- Claim C3, witness: the amended theorem evaluated on a reachable peer
whose remote execution times out, starting from one prior failure. -/
theorem C3_witness :
    (dispatch_task defaultCfg
        { defaultEnv with reachable := true, remoteResult := .timeout }
        { defaultSt with failure_count := 1 } "" false false).1.failure_count = 0 ∧
    (dispatch_task defaultCfg
        { defaultEnv with reachable := true, remoteResult := .timeout }
        { defaultSt with failure_count := 1 } "" false false).2.2 =
      .ok (run_local { defaultEnv with reachable := true, remoteResult := .timeout } "").2 :=
  C3_no_failure_recorded defaultCfg
    { defaultEnv with reachable := true, remoteResult := .timeout }
    { defaultSt with failure_count := 1 } "" rfl (by decide) (by decide) rfl rfl rfl

/-! ### Claim C4: outcome log and result tag reflect the actual destination -/

lemma isPrefixOf_append (p s : List Char) : p.isPrefixOf (p ++ s) = true := by
  induction p with
  | nil => simp [List.isPrefixOf]
  | cons a as ih => simp [List.isPrefixOf, ih]

lemma strHasPrefix_append (p x : String) : strHasPrefix p (p ++ x) = true := by
  have h : (p ++ x).data = p.data ++ x.data := rfl
  rw [strHasPrefix, h, isPrefixOf_append]

lemma tagOf_local (x : String) : tagOf ("[LOCAL] " ++ x) = some Destination.localD := by
  rw [tagOf]
  rw [strHasPrefix_append "[LOCAL] " x]
  rfl

lemma tagOf_local_error (x : String) :
    tagOf ("[LOCAL ERROR] Local execution failed: " ++ x) = some Destination.localD := by
  have h : strHasPrefix "[LOCAL ERROR] "
      ("[LOCAL ERROR] Local execution failed: " ++ x) = true := by
    have h2 : ("[LOCAL ERROR] Local execution failed: " ++ x)
        = "[LOCAL ERROR] " ++ ("Local execution failed: " ++ x) := rfl
    rw [h2, strHasPrefix_append]
  rw [tagOf, h]
  have hfalse : strHasPrefix "[LOCAL] "
      ("[LOCAL ERROR] Local execution failed: " ++ x) = false := rfl
  rw [hfalse]
  rfl

lemma tagOf_remote (x : String) : tagOf ("[REMOTE] " ++ x) = some Destination.remoteD := by
  have h1 : strHasPrefix "[LOCAL] " ("[REMOTE] " ++ x) = false := rfl
  have h2 : strHasPrefix "[LOCAL ERROR] " ("[REMOTE] " ++ x) = false := rfl
  rw [tagOf, h1, h2, strHasPrefix_append "[REMOTE] " x]
  rfl

lemma run_local_spec (env : Env) (t : String) (hlog : env.logEventFails = false) :
    (run_local env t).1.filterMap execDest = [Destination.localD] ∧
    tagOf (run_local env t).2 = some Destination.localD := by
  cases h : env.localResult with
  | success out => simp [run_local, h, hlog, log_event, execDest, tagOf_local]
  | failure err => simp [run_local, h, hlog, log_event, execDest, tagOf_local_error]

lemma run_remote_consistent (cfg : Config) (env : Env) (t : String)
    (hlog : env.logEventFails = false) :
    (run_remote cfg env t).1.filterMap execDest ≠ [] ∧
    tagOf (run_remote cfg env t).2 =
      ((run_remote cfg env t).1.filterMap execDest).getLast? := by
  have hrl := run_local_spec env t hlog
  cases hre : cfg.remote_enabled with
  | false => simp [run_remote, hre, hrl.1, hrl.2]
  | true =>
    cases hrr : env.remoteResult with
    | success out =>
      simp [run_remote, hre, hrr, hlog, log_event, execDest, tagOf_remote]
    | exitFailure err =>
      simp [run_remote, hre, hrr, hlog, log_event, execDest, hrl.1, hrl.2]
    | timeout =>
      simp [run_remote, hre, hrr, hlog, log_event, execDest, hrl.1, hrl.2]
    | transportError msg =>
      simp [run_remote, hre, hrr, hlog, log_event, execDest, hrl.1, hrl.2]

lemma dispatch_isOk (cfg : Config) (env : Env) (st : BridgeStatus) (t : String)
    (fl fr : Bool) (hff : (fl && fr) = false) (hsl : env.scorerLogFails = false) :
    isOkB (dispatch_task cfg env st t fl fr).2.2 = true := by
  simp only [dispatch_task, hff, Bool.false_eq_true, if_false, hsl]
  repeat' split
  all_goals simp [isOkB]

/-- Claim C4: every dispatch that does not hit the two uncaught failure modes
(conflicting force flags, scorer-log write failure) returns a result string
rather than raising; the outcome log then holds at least one executor-outcome
record, and the destination of the LAST such record equals the executor tag
(`[LOCAL] `, `[LOCAL ERROR] `, or `[REMOTE] `) of the returned string — the
destination actually used after any fallback. -/
theorem C4_outcome_log (cfg : Config) (env : Env) (st : BridgeStatus) (t : String)
    (fl fr : Bool) (hff : (fl && fr) = false)
    (hlog : env.logEventFails = false) (hsl : env.scorerLogFails = false) :
    isOkB (dispatch_task cfg env st t fl fr).2.2 = true ∧
    lastExec (dispatch_task cfg env st t fl fr).2.1 ≠ none ∧
    resultTag (dispatch_task cfg env st t fl fr).2.2 =
      lastExec (dispatch_task cfg env st t fl fr).2.1 := by
  refine ⟨dispatch_isOk cfg env st t fl fr hff hsl, ?_⟩
  obtain ⟨hrl1, hrl2⟩ := run_local_spec env t hlog
  obtain ⟨hrr1, hrr2⟩ := run_remote_consistent cfg env t hlog
  simp only [dispatch_task, hff, Bool.false_eq_true, if_false, hsl, hlog, log_event,
    lastExec, resultTag]
  repeat' split
  all_goals
    simp_all [List.filterMap_append, execDest, lastExec, resultTag, isOkB]

/-- Claim C4, witness: the outcome-log theorem evaluated at the default
configuration on the empty task (routes remote, peer unreachable, falls back
local). -/
theorem C4_witness :
    isOkB (dispatch_task defaultCfg defaultEnv defaultSt "" false false).2.2 = true ∧
    lastExec (dispatch_task defaultCfg defaultEnv defaultSt "" false false).2.1 ≠ none ∧
    resultTag (dispatch_task defaultCfg defaultEnv defaultSt "" false false).2.2 =
      lastExec (dispatch_task defaultCfg defaultEnv defaultSt "" false false).2.1 :=
  C4_outcome_log defaultCfg defaultEnv defaultSt "" false false rfl rfl rfl

/-! ### Claim C8: persistence failures and the dispatch path -/

lemma run_local_snd (e1 e2 : Env) (t : String) (h : e1.localResult = e2.localResult) :
    (run_local e1 t).2 = (run_local e2 t).2 := by
  cases hl : e2.localResult <;> rw [run_local, run_local, h, hl]

lemma run_remote_snd (cfg : Config) (e1 e2 : Env) (t : String)
    (hl : e1.localResult = e2.localResult) (hr : e1.remoteResult = e2.remoteResult) :
    (run_remote cfg e1 t).2 = (run_remote cfg e2 t).2 := by
  cases hre : cfg.remote_enabled <;> cases hrr : e2.remoteResult <;>
    simp [run_remote, hre, hr, hrr, run_local_snd e1 e2 t hl]

/-- Claim C8, counterexample: a write failure in the scorer's
`log_result` (which opens `recall_log.jsonl` with no try/except) propagates
out of `dispatch_task` as an exception — the caller gets no result, refuting
"the failure is logged but does not crash the dispatch path". -/
theorem C8_counterexample :
    (dispatch_task defaultCfg { defaultEnv with scorerLogFails := true } defaultSt ""
      false false).2.2 = .error .scorerLogWriteError := rfl

/-- Claim C8, amended: a write failure in `log_event` (the outcome-log
writer, which catches its exceptions) does not crash the dispatch path — the
resulting bridge state and returned result are identical with and without the
failure, and a result is returned; but a write failure in the scorer's
unguarded `log_result` aborts the dispatch (see the counterexample). -/
theorem C8_log_failure_amended (cfg : Config) (env : Env) (st : BridgeStatus) (t : String)
    (fl fr : Bool) (hff : (fl && fr) = false) (hsl : env.scorerLogFails = false) :
    isOkB (dispatch_task cfg env st t fl fr).2.2 = true ∧
    (dispatch_task cfg { env with logEventFails := true } st t fl fr).1 =
      (dispatch_task cfg env st t fl fr).1 ∧
    (dispatch_task cfg { env with logEventFails := true } st t fl fr).2.2 =
      (dispatch_task cfg env st t fl fr).2.2 := by
  have hsc : scoreOf { env with logEventFails := true } t = scoreOf env t := rfl
  have hwk : attempt_wake_and_retry cfg { env with logEventFails := true } =
    attempt_wake_and_retry cfg env := rfl
  refine ⟨dispatch_isOk cfg env st t fl fr hff hsl, ?_, ?_⟩ <;>
  · simp only [dispatch_task, hff, Bool.false_eq_true, if_false, hsl, hsc, hwk]
    repeat' split
    all_goals
      first
        | rfl
        | exact run_local_snd _ _ _ rfl
        | exact run_remote_snd _ _ _ _ rfl rfl
        | (exact congrArg Except.ok (run_local_snd _ _ _ rfl))
        | (exact congrArg Except.ok (run_remote_snd _ _ _ _ rfl rfl))
        | simp_all

/-- Claim C8, witness: the amended theorem evaluated at the default
configuration on the empty task. -/
theorem C8_witness :
    isOkB (dispatch_task defaultCfg defaultEnv defaultSt "" false false).2.2 = true ∧
    (dispatch_task defaultCfg { defaultEnv with logEventFails := true } defaultSt ""
        false false).1 =
      (dispatch_task defaultCfg defaultEnv defaultSt "" false false).1 ∧
    (dispatch_task defaultCfg { defaultEnv with logEventFails := true } defaultSt ""
        false false).2.2 =
      (dispatch_task defaultCfg defaultEnv defaultSt "" false false).2.2 :=
  C8_log_failure_amended defaultCfg defaultEnv defaultSt "" false false rfl rfl

end DiagnosticAgent
